import Mathlib

set_option maxRecDepth 100000

/-!
Verification of the hourly weather-ingestion pipeline
(`02_airflow/dags/ingest_live_hourly_weather_dag.py`).

The file embeds the pipeline's two Python callables
(`download_current_weather_data`, `extract_weather_data`), the declared
BigQuery load configuration and the declared task chain as executable Lean
definitions, and proves the specification's claims about them.

Modelling conventions:
* JSON documents are the inductive type `JValue`; Python's `json.loads` on a
  string is the executable recursive-descent function `json_loads_str`
  (numbers become `Int`/`Rat`; the model accepts leading zeroes in number
  literals and rejects the non-standard NaN/Infinity literals and unicode
  escape sequences, none of which occur in any input considered here).
* Python's `json.dump` with default arguments is `dumpVal`
  (item separator comma-space, key separator colon-space, ensure_ascii).
* 64-bit floats are modelled as rationals: every operation the pipeline
  performs on them (parsing a short literal, casting an integer, storing)
  is exact, so no rounding behaviour is observable in the claims.
* The local filesystem is reduced to the contents of the one file a step
  touches (`Option String`: `none` = the file does not exist).
-/

/-- A parsed JSON document, as produced by Python's `json` module:
objects are insertion-ordered key/value lists (later duplicate keys
overwrite the earlier value in place, as for a Python `dict`). -/
inductive JValue where
  | null
  | bool (b : Bool)
  | int (n : ℤ)
  | float (q : ℚ)
  | str (s : String)
  | arr (xs : List JValue)
  | obj (fields : List (String × JValue))

/-- First value stored under key `k`, as in a Python `dict` built by
`insertPy` (which keeps keys unique). -/
def lookupF : List (String × JValue) → String → Option JValue
  | [], _ => none
  | (k0, v0) :: rest, k => if k0 = k then some v0 else lookupF rest k

/-- `d[k] = v` on a Python `dict` represented as an insertion-ordered list:
an existing key keeps its position and gets the new value, a new key is
appended. -/
def insertPy : List (String × JValue) → String → JValue → List (String × JValue)
  | [], k, v => [(k, v)]
  | (k0, v0) :: rest, k, v =>
      if k0 = k then (k0, v) :: rest else (k0, v0) :: insertPy rest k v

/-! ### json.loads on a string: recursive-descent parser -/

def isJsonWs (c : Char) : Bool :=
  c = ' ' || c = '\t' || c = '\n' || c = '\r'

def skipWs : List Char → List Char
  | [] => []
  | c :: cs => if isJsonWs c then skipWs cs else c :: cs

def takeDigits : List Char → List Char × List Char
  | [] => ([], [])
  | c :: cs =>
      if c.isDigit then
        let (ds, r) := takeDigits cs
        (c :: ds, r)
      else ([], c :: cs)

def digitsToNat (ds : List Char) : ℕ :=
  ds.foldl (fun a c => 10 * a + (c.toNat - 48)) 0

/-- Consume the exact literal `lit` from the head of the input. -/
def stripLit : List Char → List Char → Option (List Char)
  | [], cs => some cs
  | _ :: _, [] => none
  | l :: ls, c :: cs => if c = l then stripLit ls cs else none

/-- Body of a JSON string after the opening quote: returns the decoded
characters and the remaining input after the closing quote.  The model
decodes the simple backslash escapes and rejects unicode escapes. -/
def parseStringChars : List Char → Option (List Char × List Char)
  | [] => none
  | c :: cs =>
      if c = '"' then some ([], cs)
      else if c = '\\' then
        match cs with
        | [] => none
        | e :: cs2 =>
          let dec : Option Char :=
            if e = '"' then some '"'
            else if e = '\\' then some '\\'
            else if e = '/' then some '/'
            else if e = 'n' then some '\n'
            else if e = 't' then some '\t'
            else if e = 'r' then some '\r'
            else if e = 'b' then some (Char.ofNat 8)
            else if e = 'f' then some (Char.ofNat 12)
            else none
          match dec with
          | none => none
          | some ch =>
            match parseStringChars cs2 with
            | none => none
            | some (rest, r) => some (ch :: rest, r)
      else
        match parseStringChars cs with
        | none => none
        | some (rest, r) => some (c :: rest, r)

/-- Optional exponent part of a number literal.
Returns (exponent present?, exponent, rest). -/
def parseExpAfter (r : List Char) : Option (Bool × ℤ × List Char) :=
  let (sgn, r1) : ℤ × List Char :=
    match r with
    | '+' :: rr => (1, rr)
    | '-' :: rr => (-1, rr)
    | _ => (1, r)
  match takeDigits r1 with
  | ([], _) => none
  | (ds, r2) => some (true, sgn * (digitsToNat ds : ℤ), r2)

def parseExpOpt : List Char → Option (Bool × ℤ × List Char)
  | 'e' :: r => parseExpAfter r
  | 'E' :: r => parseExpAfter r
  | cs => some (false, 0, cs)

/-- The rational `m * 10 ^ e`, built with `mkRat` so that it evaluates by
kernel reduction. -/
def ratOfParts (m : ℤ) (e : ℤ) : ℚ :=
  if 0 ≤ e then mkRat (m * ((10 ^ e.toNat : ℕ) : ℤ)) 1
  else mkRat m (10 ^ (-e).toNat)

/-- A JSON number literal.  A literal with a fraction or exponent becomes a
Python float (`JValue.float`), a bare integer a Python int (`JValue.int`). -/
def parseNumber (cs : List Char) : Option (JValue × List Char) :=
  let (neg, cs1) : Bool × List Char :=
    match cs with
    | '-' :: r => (true, r)
    | _ => (false, cs)
  match takeDigits cs1 with
  | ([], _) => none
  | (ds, cs2) =>
    let ipn : ℕ := digitsToNat ds
    match cs2 with
    | '.' :: cs3 =>
      match takeDigits cs3 with
      | ([], _) => none
      | (fs, cs4) =>
        let mag : ℤ := ((ipn * 10 ^ fs.length + digitsToNat fs : ℕ) : ℤ)
        let m : ℤ := if neg then -mag else mag
        match parseExpOpt cs4 with
        | none => none
        | some (_, e, cs5) => some (.float (ratOfParts m (e - (fs.length : ℤ))), cs5)
    | _ =>
      match parseExpOpt cs2 with
      | none => none
      | some (present, e, cs5) =>
        let ip : ℤ := if neg then -(ipn : ℤ) else (ipn : ℤ)
        if present then some (.float (ratOfParts ip e), cs5)
        else some (.int ip, cs5)

mutual

def parseVal : ℕ → List Char → Option (JValue × List Char)
  | 0, _ => none
  | fuel + 1, cs =>
    match skipWs cs with
    | [] => none
    | c :: cs' =>
      if c = '\x7b' then parseObjRest fuel cs' [] true
      else if c = '[' then parseArrRest fuel cs' [] true
      else if c = '"' then
        match parseStringChars cs' with
        | none => none
        | some (body, r) => some (.str (String.mk body), r)
      else if c = 't' then (stripLit ['r', 'u', 'e'] cs').map (fun r => (.bool true, r))
      else if c = 'f' then (stripLit ['a', 'l', 's', 'e'] cs').map (fun r => (.bool false, r))
      else if c = 'n' then (stripLit ['u', 'l', 'l'] cs').map (fun r => (.null, r))
      else parseNumber (c :: cs')

def parseObjRest : ℕ → List Char → List (String × JValue) → Bool → Option (JValue × List Char)
  | 0, _, _, _ => none
  | fuel + 1, cs, acc, first =>
    match skipWs cs with
    | [] => none
    | c :: rest =>
      if first && c = '\x7d' then some (.obj acc, rest)
      else if c = '"' then
        match parseStringChars rest with
        | none => none
        | some (kcs, r1) =>
          match skipWs r1 with
          | ':' :: r2 =>
            match parseVal fuel r2 with
            | none => none
            | some (v, r3) =>
              let acc' := insertPy acc (String.mk kcs) v
              match skipWs r3 with
              | ',' :: r4 => parseObjRest fuel r4 acc' false
              | '\x7d' :: r4 => some (.obj acc', r4)
              | _ => none
          | _ => none
      else none

def parseArrRest : ℕ → List Char → List JValue → Bool → Option (JValue × List Char)
  | 0, _, _, _ => none
  | fuel + 1, cs, acc, first =>
    match skipWs cs with
    | [] => none
    | c :: _ =>
      if first && c = ']' then
        match skipWs cs with
        | _ :: rest => some (.arr acc.reverse, rest)
        | [] => none
      else
        match parseVal fuel (skipWs cs) with
        | none => none
        | some (v, r1) =>
          match skipWs r1 with
          | ',' :: r2 => parseArrRest fuel r2 (v :: acc) false
          | ']' :: r2 => some (.arr (v :: acc).reverse, r2)
          | _ => none

end

/-- Python `json.loads` applied to a string: parse one JSON document and
require only whitespace after it. -/
def json_loads_str (s : String) : Option JValue :=
  match parseVal (s.length + 1) s.data with
  | none => none
  | some (v, rest) => if (skipWs rest).isEmpty then some v else none

/-! ### json.dump with default arguments -/

def hexDigit (n : ℕ) : Char :=
  if n < 10 then Char.ofNat (48 + n) else Char.ofNat (87 + n)

def hex4 (n : ℕ) : String :=
  String.mk [hexDigit (n / 4096 % 16), hexDigit (n / 256 % 16),
             hexDigit (n / 16 % 16), hexDigit (n % 16)]

/-- One character of a dumped JSON string, under `ensure_ascii=True`:
printable ASCII other than quote and backslash passes through, everything
else is escaped exactly as CPython's `json` encoder does. -/
def escapeChar (c : Char) : String :=
  if c = '"' then "\\\""
  else if c = '\\' then "\\\\"
  else if c = '\n' then "\\n"
  else if c = '\t' then "\\t"
  else if c = '\r' then "\\r"
  else if c = Char.ofNat 8 then "\\b"
  else if c = Char.ofNat 12 then "\\f"
  else if c.toNat < 32 || 126 < c.toNat then
    if c.toNat ≤ 65535 then "\\u" ++ hex4 c.toNat
    else
      let v := c.toNat - 65536
      "\\u" ++ hex4 (55296 + v / 1024) ++ "\\u" ++ hex4 (56320 + v % 1024)
  else String.mk [c]

def dumpStr (s : String) : String :=
  "\"" ++ String.join (s.data.map escapeChar) ++ "\""

/-- Shortest decimal rendering of a float that is an exact decimal, as
`repr` of a CPython float produces for every float the pipeline handles
(the digits of a short parsed literal round-trip unchanged).  Rationals
with no finite decimal expansion cannot arise from parsed JSON floats; they
get a fraction fallback.  Because the minimal power of ten is used, the
fractional digits never end in a zero, matching Python's shortest `repr`. -/
def decimalOfRat (q : ℚ) : String :=
  let sign : List Char := if q.num < 0 then ['-'] else []
  match (List.range 31).find? (fun k => (10 ^ k) % q.den == 0) with
  | none => String.mk sign ++ toString q.num.natAbs ++ "/" ++ toString q.den
  | some k =>
    let scaled := q.num.natAbs * (10 ^ k / q.den)
    let ds := (toString scaled).data
    if k = 0 then String.mk (sign ++ ds ++ ['.', '0'])
    else
      let ds := if ds.length < k + 1 then List.replicate (k + 1 - ds.length) '0' ++ ds else ds
      String.mk (sign ++ ds.take (ds.length - k) ++ ['.'] ++ ds.drop (ds.length - k))

mutual

/-- Python `json.dump(obj, f)` with default arguments: separators
comma-space and colon-space, `ensure_ascii=True`. -/
def dumpVal : JValue → String
  | .null => "null"
  | .bool true => "true"
  | .bool false => "false"
  | .int n => toString n
  | .float q => decimalOfRat q
  | .str s => dumpStr s
  | .arr xs => "[" ++ dumpList xs ++ "]"
  | .obj fs => "\x7b" ++ dumpFields fs ++ "\x7d"

def dumpList : List JValue → String
  | [] => ""
  | [x] => dumpVal x
  | x :: xs => dumpVal x ++ ", " ++ dumpList xs

def dumpFields : List (String × JValue) → String
  | [] => ""
  | [(k, v)] => dumpStr k ++ ": " ++ dumpVal v
  | (k, v) :: xs => dumpStr k ++ ": " ++ dumpVal v ++ ", " ++ dumpFields xs

end

/-! ### Python runtime errors and `json.loads` on an arbitrary object -/

/-- The Python exceptions the pipeline steps can raise, with the message
where a claim refers to it. -/
inductive PyErr where
  | typeError (msg : String)
  | valueError (msg : String)
  | keyError (key : String)
  | jsonDecodeError
  | fileNotFoundError
  | arrowTypeError
deriving DecidableEq

/-- The exception CPython's `json.loads` raises when handed an open text
file object instead of a string. -/
def jsonLoadsTypeError : PyErr :=
  .typeError "the JSON object must be str, bytes or bytearray, not TextIOWrapper"

/-- A Python value passed to `json.loads`: either a string or an open file
object (whose contents are carried along but are not inspected by
`json.loads`, which only dispatches on the argument's type). -/
inductive PyVal where
  | pyStr (s : String)
  | pyFileObj (contents : String)

/-- Python `json.loads`: parses a string argument, raises `TypeError` for a
file object (line 64 of the DAG passes the file object `f` itself). -/
def json_loads : PyVal → Except PyErr JValue
  | .pyStr s =>
    match json_loads_str s with
    | some j => .ok j
    | none => .error .jsonDecodeError
  | .pyFileObj _ => .error jsonLoadsTypeError

/-! ### The pandas/pyarrow fragment used by `extract_weather_data`

`pd.DataFrame(j['main'], index=[0])` builds a one-row frame whose columns
are the keys of the dict, in insertion order.  `.assign` adds or replaces
columns left to right.  `pa.Table.from_pandas(df, schema=schema)` selects
exactly the schema's columns by name.  A cell of the one-row frame is a
`ScalarVal`; non-scalar JSON values inside `main`/`coord` are modelled as
conversion errors (the real API response never contains them there). -/

/-- One cell of the single-row frame: a numeric value (64-bit floats and
Python ints are both exact here, see the header), a UTC instant in whole
seconds since the epoch, a string, a boolean, or a null/NaN cell. -/
inductive ScalarVal where
  | num (q : ℚ)
  | time (t : ℤ)
  | sstr (s : String)
  | sbool (b : Bool)
  | snull
deriving DecidableEq

/-- A scalar JSON value as a frame cell. -/
def jscalar : JValue → Except PyErr ScalarVal
  | .int n => .ok (.num (mkRat n 1))
  | .float q => .ok (.num q)
  | .str s => .ok (.sstr s)
  | .bool b => .ok (.sbool b)
  | .null => .ok .snull
  | _ => .error (.valueError "non-scalar JSON value where a scalar cell is required")

/-- Python `j[k]` on a parsed JSON document: key lookup on an object,
`KeyError` when the key is absent, `TypeError` otherwise. -/
def jget : JValue → String → Except PyErr JValue
  | .obj fs, k =>
    match lookupF fs k with
    | some v => .ok v
    | none => .error (.keyError k)
  | _, _ => .error (.typeError "value does not support string indexing")

/-- Requires a JSON object (a Python mapping), as `pd.DataFrame(..., index=[0])`
and `**`-expansion both do. -/
def asObj : JValue → Except PyErr (List (String × JValue))
  | .obj fs => .ok fs
  | _ => .error (.typeError "a mapping is required")

/-- The single-row frame: ordered columns, one cell each. -/
abbrev DF := List (String × ScalarVal)

/-- First cell stored under column `n`. -/
def getCol : DF → String → Option ScalarVal
  | [], _ => none
  | (k, v) :: rest, n => if k = n then some v else getCol rest n

/-- Replace the cell of an existing column in place, or append a new
column, exactly as `DataFrame.assign` does for one keyword. -/
def setCol : DF → String → ScalarVal → DF
  | [], n, v => [(n, v)]
  | (k, v0) :: rest, n, v =>
    if k = n then (k, v) :: rest else (k, v0) :: setCol rest n v

/-- Cells of the initial frame built from a dict of scalars. -/
def scalarCols : List (String × JValue) → Except PyErr DF
  | [] => .ok []
  | (k, v) :: rest =>
    match jscalar v with
    | .error e => .error e
    | .ok s =>
      match scalarCols rest with
      | .error e => .error e
      | .ok cs => .ok ((k, s) :: cs)

/-- `pd.to_datetime(x, unit='s').tz_localize('UTC')`: the Unix-seconds
integer reinterpreted as a UTC instant (the only shape the API's `dt`
field takes). -/
def to_datetime_s : JValue → Except PyErr ScalarVal
  | .int n => .ok (.time n)
  | _ => .error (.valueError "to_datetime with unit=s requires an epoch number")

/-- `df_[c].astype('float')` applied to the one cell of column `c`:
`KeyError` when the column is absent; numbers stay themselves (float64 is
exact on everything handled here), booleans become 0.0/1.0, None becomes
NaN (kept as the null cell), anything else fails to convert. -/
def castFloatCol (d : DF) (n : String) : Except PyErr DF :=
  match getCol d n with
  | none => .error (.keyError n)
  | some (.num q) => .ok (setCol d n (.num q))
  | some (.sbool b) => .ok (setCol d n (.num (if b then mkRat 1 1 else mkRat 0 1)))
  | some .snull => .ok (setCol d n .snull)
  | some _ => .error (.valueError "could not convert value to float")

/-- The pyarrow column types the DAG's explicit schema uses. -/
inductive PAType where
  | float64
  | timestampS
deriving DecidableEq

/-- The explicit nine-field schema built at lines 79-93 of the DAG
(`fields` / `pa.schema(fields)`). -/
def weatherSchema : List (String × PAType) :=
  [("temp", .float64), ("feels_like", .float64), ("temp_min", .float64),
   ("temp_max", .float64), ("pressure", .float64), ("humidity", .float64),
   ("timestamp", .timestampS), ("lon", .float64), ("lat", .float64)]

/-- The one output row, in the schema's column order. -/
structure Row where
  temp : ScalarVal
  feels_like : ScalarVal
  temp_min : ScalarVal
  temp_max : ScalarVal
  pressure : ScalarVal
  humidity : ScalarVal
  timestamp : ScalarVal
  lon : ScalarVal
  lat : ScalarVal
deriving DecidableEq

/-- A written parquet file: its schema and its rows. -/
structure ParquetFile where
  schema : List (String × PAType)
  rows : List Row
deriving DecidableEq

/-- `Table.from_pandas` conversion of one cell to a `float64` field:
the column must exist (else `KeyError`) and hold a number or a null. -/
def reqFloatCol (d : DF) (n : String) : Except PyErr ScalarVal :=
  match getCol d n with
  | none => .error (.keyError n)
  | some (.num q) => .ok (.num q)
  | some .snull => .ok .snull
  | some _ => .error .arrowTypeError

/-- `Table.from_pandas` conversion of one cell to the `timestamp('s')`
field. -/
def reqTsCol (d : DF) (n : String) : Except PyErr ScalarVal :=
  match getCol d n with
  | none => .error (.keyError n)
  | some (.time t) => .ok (.time t)
  | some .snull => .ok .snull
  | some _ => .error .arrowTypeError

/-- `pa.Table.from_pandas(df, schema=schema)` on the one-row frame:
select the nine schema columns by name and type-check them. -/
def rowFromDF (d : DF) : Except PyErr Row :=
  match reqFloatCol d "temp" with
  | .error e => .error e
  | .ok ct =>
  match reqFloatCol d "feels_like" with
  | .error e => .error e
  | .ok cf =>
  match reqFloatCol d "temp_min" with
  | .error e => .error e
  | .ok cn =>
  match reqFloatCol d "temp_max" with
  | .error e => .error e
  | .ok cx =>
  match reqFloatCol d "pressure" with
  | .error e => .error e
  | .ok cp =>
  match reqFloatCol d "humidity" with
  | .error e => .error e
  | .ok ch =>
  match reqTsCol d "timestamp" with
  | .error e => .error e
  | .ok cts =>
  match reqFloatCol d "lon" with
  | .error e => .error e
  | .ok clo =>
  match reqFloatCol d "lat" with
  | .error e => .error e
  | .ok cla => .ok ⟨ct, cf, cn, cx, cp, ch, cts, clo, cla⟩

/-- The explicit keywords of the `.assign(...)` call.  A key of `j['coord']`
equal to one of these would make the `**`-expansion a duplicate keyword
argument, a `TypeError` at call time. -/
def assignKwargs : List String :=
  ["timestamp", "temp", "feels_like", "temp_min", "temp_max", "pressure", "humidity"]

/-- The `.assign` keyword applications before the float casts: set the
`timestamp` column, then the `**j['coord']` columns, in order. -/
def assembleDF (df0 : DF) (ts : ScalarVal) (coordCols : DF) : DF :=
  coordCols.foldl (fun d kv => setCol d kv.1 kv.2) (setCol df0 "timestamp" ts)

/-- Lines 67-98 of `extract_weather_data`, after the input has been parsed:
build the one-row frame from `j['main']`, assign the timestamp derived
from `j['dt']`, the `**j['coord']` columns and the six float casts, then
convert to a parquet table with the explicit nine-column schema.
This is the portion of the function after the `json.loads` call. -/
def extract_body (j : JValue) : Except PyErr ParquetFile :=
  match jget j "main" with
  | .error e => .error e
  | .ok mainV =>
  match asObj mainV with
  | .error e => .error e
  | .ok mainF =>
  match scalarCols mainF with
  | .error e => .error e
  | .ok df0 =>
  match jget j "dt" with
  | .error e => .error e
  | .ok dtV =>
  match to_datetime_s dtV with
  | .error e => .error e
  | .ok ts =>
  match jget j "coord" with
  | .error e => .error e
  | .ok coordV =>
  match asObj coordV with
  | .error e => .error e
  | .ok coordF =>
  match coordF.any (fun kv => assignKwargs.contains kv.1) with
  | true => .error (.typeError "assign got multiple values for a keyword argument")
  | false =>
  match scalarCols coordF with
  | .error e => .error e
  | .ok coordCols =>
  match castFloatCol (assembleDF df0 ts coordCols) "temp" with
  | .error e => .error e
  | .ok df3 =>
  match castFloatCol df3 "feels_like" with
  | .error e => .error e
  | .ok df4 =>
  match castFloatCol df4 "temp_min" with
  | .error e => .error e
  | .ok df5 =>
  match castFloatCol df5 "temp_max" with
  | .error e => .error e
  | .ok df6 =>
  match castFloatCol df6 "pressure" with
  | .error e => .error e
  | .ok df7 =>
  match castFloatCol df7 "humidity" with
  | .error e => .error e
  | .ok df8 =>
  match rowFromDF df8 with
  | .error e => .error e
  | .ok row => .ok ⟨weatherSchema, [row]⟩

/-- `extract_weather_data(file_suffix)` (lines 58-98).  The filesystem is
reduced to the contents of `AIRFLOW_HOME/{file_suffix}.json`
(`none` = the file does not exist, so `open` raises).  The function opens
the file and passes the open file object, not its contents, to
`json.loads` (`j = json.loads(f)`, line 64), then runs the transform body
on the parsed document.  An error result means no parquet file is
written. -/
def extract_weather_data (rawFile : Option String) : Except PyErr ParquetFile :=
  match rawFile with
  | none => .error .fileNotFoundError
  | some contents =>
    match json_loads (.pyFileObj contents) with
    | .error e => .error e
    | .ok j => extract_body j

/-! ### The fetcher -/

/-- The response `requests.get` returned: HTTP status code and raw body. -/
structure HttpResponse where
  status : ℕ
  body : String
deriving DecidableEq

/-- Outcome of `download_current_weather_data`: the final contents of the
output file (`none` = the file was never created) and the exception the
call raised (`none` = it returned normally). -/
structure FetchResult where
  outfile : Option String
  err : Option PyErr
deriving DecidableEq

/-- `download_current_weather_data(lat, lon, outfile)` (lines 34-56), as a
function of the HTTP response.  On status 200 it runs
`with open(outfile, 'w') as f: json.dump(r.json(), f)`: the `open` call
truncates/creates the file first, then `r.json()` parses the body — if
that fails the file is left empty and the decode error propagates;
otherwise the re-serialized document is written.  On any other status it
raises `ValueError` with the status code in the message, without touching
the file. -/
def download_current_weather_data (r : HttpResponse) : FetchResult :=
  if r.status = 200 then
    match json_loads_str r.body with
    | some j => ⟨some (dumpVal j), none⟩
    | none => ⟨some "", some .jsonDecodeError⟩
  else
    ⟨none, some (.valueError ("OpenWeatherMap API returned value " ++ toString r.status))⟩

/-! ### Module constants and the BigQuery load task -/

/-- Line 31: `LAT = 39.847`. -/
def LAT : ℚ := mkRat 39847 1000

/-- Line 32: `LON = -104.656`. -/
def LON : ℚ := mkRat (-104656) 1000

def BIGQUERY_DATASET : String := "energy_data"

/-- The keyword arguments of the `GCSToBigQueryOperator` (lines 160-169).
`bucket` comes from the environment and `suffix` is the rendered
logical-date template, so both are parameters. -/
structure GCSToBigQueryConfig where
  bucket : String
  source_objects : String
  destination_project_dataset_table : String
  source_format : String
  write_disposition : String
  create_disposition : String
deriving DecidableEq

/-- The `load_to_bq_task` declaration. -/
def load_to_bq_task (bucket suffix : String) : GCSToBigQueryConfig :=
  { bucket := bucket
    source_objects :=
      "staged/live_weather/" ++ decimalOfRat LAT ++ "_" ++ decimalOfRat LON ++
        "/" ++ suffix ++ ".parquet"
    destination_project_dataset_table := BIGQUERY_DATASET ++ ".hourly_updated_weather"
    source_format := "parquet"
    write_disposition := "WRITE_APPEND"
    create_disposition := "CREATE_IF_NEEDED" }

/-- Modelled from the spec: the BigQuery load semantics behind
`GCSToBigQueryOperator` (provider code, not in this repository).  Per the
spec's glossary, the `WRITE_APPEND` disposition "adds new rows without
removing or deduplicating existing ones"; `WRITE_TRUNCATE` replaces the
table's rows; `WRITE_EMPTY` requires an empty table. -/
def bqWriteRows (disposition : String) (t newRows : Multiset Row) :
    Except String (Multiset Row) :=
  if disposition = "WRITE_APPEND" then .ok (t + newRows)
  else if disposition = "WRITE_TRUNCATE" then .ok newRows
  else if disposition = "WRITE_EMPTY" then
    if t = 0 then .ok newRows else .error "destination table is not empty"
  else .error "unknown write disposition"

/-- Modelled from the spec: one load-job execution.  `table = none` means
the destination table does not exist; `CREATE_IF_NEEDED` then creates it
empty before writing, any other create disposition fails. -/
def bqLoad (cfg : GCSToBigQueryConfig) (table : Option (Multiset Row))
    (newRows : Multiset Row) : Except String (Multiset Row) :=
  match table with
  | some t => bqWriteRows cfg.write_disposition t newRows
  | none =>
    if cfg.create_disposition = "CREATE_IF_NEEDED" then
      bqWriteRows cfg.write_disposition 0 newRows
    else .error "destination table not found"

/-! ### The declared task chain -/

/-- The six task declarations of the DAG, by their variable names. -/
inductive AirflowTask where
  | download_dataset_task
  | local_raw_to_gcs_task
  | extract_data_task
  | local_extracted_to_gcs_task
  | load_to_bq_task
  | cleanup_task
deriving DecidableEq, Fintype

/-- Line 173 of the DAG:
`download_dataset_task >> local_raw_to_gcs_task >> extract_data_task >>
 local_extracted_to_gcs_task >> load_to_bq_task >> cleanup_task`. -/
def dag_chain : List AirflowTask :=
  [.download_dataset_task, .local_raw_to_gcs_task, .extract_data_task,
   .local_extracted_to_gcs_task, .load_to_bq_task, .cleanup_task]

/-- Modelled from the spec: the scheduler's execution of the declared
chain ("each stage must complete before the next starts; ... failure →
halt").  `ok t = true` means the attempt of task `t` succeeds.  The result
lists the tasks that started, in order: a task starts, and if it fails the
tasks after it never run. -/
def runChain (ok : AirflowTask → Bool) : List AirflowTask → List AirflowTask
  | [] => []
  | t :: ts => if ok t then t :: runChain ok ts else [t]

/-! ### Calendar conversion for the timestamp claims -/

/-- Days since 1970-01-01 to a proleptic-Gregorian (year, month, day),
using floor division (Mathlib's `/` on `ℤ`). -/
def civilFromDays (z : ℤ) : ℤ × ℤ × ℤ :=
  let z' := z + 719468
  let era := z' / 146097
  let doe := z' % 146097
  let yoe := (doe - doe / 1460 + doe / 36524 - doe / 146096) / 365
  let y := yoe + era * 400
  let doy := doe - (365 * yoe + yoe / 4 - yoe / 100)
  let mp := (5 * doy + 2) / 153
  let d := doy - (153 * mp + 2) / 5 + 1
  let m := mp + (if mp < 10 then 3 else -9)
  (if m ≤ 2 then y + 1 else y, m, d)

/-- Unix seconds to a UTC civil instant
(year, month, day, hour, minute, second). -/
def epochToUTC (t : ℤ) : ℤ × ℤ × ℤ × ℤ × ℤ × ℤ :=
  let days := t / 86400
  let sod := t % 86400
  let (y, m, d) := civilFromDays days
  (y, m, d, sod / 3600, sod % 3600 / 60, sod % 60)

/-! ### Concrete API responses used by the claims -/

/-- The end-to-end scenario response of the spec, as raw JSON text. -/
def c4raw : String :=
  "\x7b\"main\":\x7b\"temp\":10.0,\"feels_like\":9.5,\"temp_min\":8.0," ++
  "\"temp_max\":12.0,\"pressure\":1012,\"humidity\":55\x7d," ++
  "\"coord\":\x7b\"lon\":-104.656,\"lat\":39.847\x7d,\"dt\":1650000000\x7d"

/-- The end-to-end scenario response, parsed. -/
def c4json : JValue :=
  .obj [("main", .obj [("temp", .float (mkRat 10 1)), ("feels_like", .float (mkRat 19 2)),
                       ("temp_min", .float (mkRat 8 1)), ("temp_max", .float (mkRat 12 1)),
                       ("pressure", .int 1012), ("humidity", .int 55)]),
        ("coord", .obj [("lon", .float (mkRat (-13082) 125)),
                        ("lat", .float (mkRat 39847 1000))]),
        ("dt", .int 1650000000)]

/-- The row the spec's end-to-end scenario expects. -/
def c4row : Row :=
  { temp := .num (mkRat 10 1), feels_like := .num (mkRat 19 2),
    temp_min := .num (mkRat 8 1), temp_max := .num (mkRat 12 1),
    pressure := .num (mkRat 1012 1), humidity := .num (mkRat 55 1),
    timestamp := .time 1650000000,
    lon := .num (mkRat (-13082) 125), lat := .num (mkRat 39847 1000) }

/-- A second valid API response (all required fields present). -/
def c1raw : String :=
  "\x7b\"main\":\x7b\"temp\":1.5,\"feels_like\":2.0,\"temp_min\":1.0," ++
  "\"temp_max\":3.0,\"pressure\":1000,\"humidity\":50\x7d," ++
  "\"coord\":\x7b\"lon\":4.5,\"lat\":5.5\x7d,\"dt\":1650003600\x7d"

/-- The second valid response, parsed. -/
def c1json : JValue :=
  .obj [("main", .obj [("temp", .float (mkRat 3 2)), ("feels_like", .float (mkRat 2 1)),
                       ("temp_min", .float (mkRat 1 1)), ("temp_max", .float (mkRat 3 1)),
                       ("pressure", .int 1000), ("humidity", .int 50)]),
        ("coord", .obj [("lon", .float (mkRat 9 2)), ("lat", .float (mkRat 11 2))]),
        ("dt", .int 1650003600)]

/-- The row the transform body produces for `c1json`. -/
def c1row : Row :=
  { temp := .num (mkRat 3 2), feels_like := .num (mkRat 2 1),
    temp_min := .num (mkRat 1 1), temp_max := .num (mkRat 3 1),
    pressure := .num (mkRat 1000 1), humidity := .num (mkRat 50 1),
    timestamp := .time 1650003600,
    lon := .num (mkRat 9 2), lat := .num (mkRat 11 2) }

/-- A response whose coordinates differ from the configured request point,
used to exercise the coordinate provenance claim. -/
def c10json : JValue :=
  .obj [("main", .obj [("temp", .int 7), ("feels_like", .int 6), ("temp_min", .int 5),
                       ("temp_max", .int 9), ("pressure", .int 990), ("humidity", .int 40)]),
        ("coord", .obj [("lon", .int 1), ("lat", .int 2)]),
        ("dt", .int 1700000000)]

/-- The row the transform body produces for `c10json`. -/
def c10row : Row :=
  { temp := .num (mkRat 7 1), feels_like := .num (mkRat 6 1),
    temp_min := .num (mkRat 5 1), temp_max := .num (mkRat 9 1),
    pressure := .num (mkRat 990 1), humidity := .num (mkRat 40 1),
    timestamp := .time 1700000000,
    lon := .num (mkRat 1 1), lat := .num (mkRat 2 1) }

/-- `true` on a JSON object holding key `k`. -/
def hasKeyB (j : JValue) (k : String) : Bool :=
  match j with
  | .obj fs => (lookupF fs k).isSome
  | _ => false

/-- The input class of the missing-field claim: raw file contents that do
not parse as JSON, or parse to a document without one of the three
required top-level fields. -/
def missingRequired (c : String) : Bool :=
  match json_loads_str c with
  | none => true
  | some j => !(hasKeyB j "main" && hasKeyB j "coord" && hasKeyB j "dt")

/-- A run outcome in which every task attempt succeeds except the staged
upload. -/
def failUploadStaged : AirflowTask → Bool :=
  fun t => decide (t ≠ AirflowTask.local_extracted_to_gcs_task)


/-! ### Helper lemmas about the frame operations -/

theorem getCol_setCol_self (d : DF) (n : String) (v : ScalarVal) :
    getCol (setCol d n v) n = some v := by
  induction d with
  | nil => simp [setCol, getCol]
  | cons kv rest ih =>
    obtain ⟨k, v0⟩ := kv
    by_cases hk : k = n <;> simp [setCol, getCol, hk, ih]

theorem getCol_setCol_ne (d : DF) (n m : String) (v : ScalarVal) (h : m ≠ n) :
    getCol (setCol d n v) m = getCol d m := by
  induction d with
  | nil =>
    have hnm : ¬(n = m) := fun hh => h hh.symm
    simp [setCol, getCol, hnm]
  | cons kv rest ih =>
    obtain ⟨k, v0⟩ := kv
    by_cases hk : k = n
    · subst hk
      have hkm : ¬(k = m) := fun hh => h hh.symm
      simp [setCol, getCol, hkm]
    · simp [setCol, getCol, hk, ih]

theorem foldl_setCol_notmem (cols : List (String × ScalarVal)) (df : DF) (k : String)
    (h : k ∉ cols.map Prod.fst) :
    getCol (cols.foldl (fun d kv => setCol d kv.1 kv.2) df) k = getCol df k := by
  induction cols generalizing df with
  | nil => rfl
  | cons kv rest ih =>
    obtain ⟨k0, v0⟩ := kv
    simp only [List.map_cons, List.mem_cons, not_or] at h
    simp only [List.foldl_cons]
    rw [ih (setCol df k0 v0) h.2, getCol_setCol_ne df k0 k v0 h.1]

theorem foldl_setCol_getCol (cols : List (String × ScalarVal)) (df : DF) (k : String)
    (s : ScalarVal) (hnd : (cols.map Prod.fst).Nodup) (hget : getCol cols k = some s) :
    getCol (cols.foldl (fun d kv => setCol d kv.1 kv.2) df) k = some s := by
  induction cols generalizing df with
  | nil => simp [getCol] at hget
  | cons kv rest ih =>
    obtain ⟨k0, v0⟩ := kv
    simp only [List.map_cons, List.nodup_cons] at hnd
    by_cases hk : k0 = k
    · subst hk
      simp only [getCol, if_true, eq_self_iff_true, Option.some.injEq] at hget
      subst hget
      simp only [List.foldl_cons]
      rw [foldl_setCol_notmem rest (setCol df k0 v0) k0 hnd.1]
      exact getCol_setCol_self df k0 v0
    · simp only [getCol, if_neg hk] at hget
      simp only [List.foldl_cons]
      exact ih (setCol df k0 v0) hnd.2 hget

theorem scalarCols_ok_keys (fs : List (String × JValue)) (cols : DF)
    (h : scalarCols fs = .ok cols) : cols.map Prod.fst = fs.map Prod.fst := by
  induction fs generalizing cols with
  | nil =>
    simp only [scalarCols, Except.ok.injEq] at h
    subst h; rfl
  | cons kv rest ih =>
    obtain ⟨k, v⟩ := kv
    cases hjs : jscalar v with
    | error e => simp [scalarCols, hjs] at h
    | ok s0 =>
      cases hrest : scalarCols rest with
      | error e => simp [scalarCols, hjs, hrest] at h
      | ok cs =>
        simp only [scalarCols, hjs, hrest] at h
        injection h with h
        subst h
        simp [ih cs hrest]

theorem scalarCols_ok_lookup (fs : List (String × JValue)) (cols : DF) (k : String)
    (v : JValue) (s : ScalarVal) (h : scalarCols fs = .ok cols)
    (hl : lookupF fs k = some v) (hs : jscalar v = .ok s) :
    getCol cols k = some s := by
  induction fs generalizing cols with
  | nil => simp [lookupF] at hl
  | cons kv rest ih =>
    obtain ⟨k0, v0⟩ := kv
    cases hjs : jscalar v0 with
    | error e => simp [scalarCols, hjs] at h
    | ok s0 =>
      cases hrest : scalarCols rest with
      | error e => simp [scalarCols, hjs, hrest] at h
      | ok cs =>
        simp only [scalarCols, hjs, hrest] at h
        injection h with h
        subst h
        by_cases hk : k0 = k
        · subst hk
          simp only [lookupF, if_true, eq_self_iff_true, Option.some.injEq] at hl
          subst hl
          rw [hjs] at hs
          injection hs with hs
          subst hs
          simp [getCol]
        · simp only [lookupF, if_neg hk] at hl
          simp only [getCol, if_neg hk]
          exact ih cs hrest hl

theorem castFloatCol_ok_ne (d d' : DF) (n m : String) (h : castFloatCol d n = .ok d')
    (hm : m ≠ n) : getCol d' m = getCol d m := by
  unfold castFloatCol at h
  split at h <;> first
    | exact Except.noConfusion h
    | (injection h with h; subst h; exact getCol_setCol_ne d n m _ hm)

theorem rowFromDF_ok_lon (d : DF) (r : Row) (h : rowFromDF d = .ok r) :
    reqFloatCol d "lon" = .ok r.lon := by
  unfold rowFromDF at h
  repeat' split at h
  any_goals exact Except.noConfusion h
  injection h with h
  subst h
  assumption

theorem rowFromDF_ok_lat (d : DF) (r : Row) (h : rowFromDF d = .ok r) :
    reqFloatCol d "lat" = .ok r.lat := by
  unfold rowFromDF at h
  repeat' split at h
  any_goals exact Except.noConfusion h
  injection h with h
  subst h
  assumption

theorem extract_body_ok_shape (j : JValue) (f : ParquetFile)
    (h : extract_body j = .ok f) : ∃ r, f = ⟨weatherSchema, [r]⟩ := by
  simp only [extract_body] at h
  repeat' split at h
  any_goals exact Except.noConfusion h
  injection h with h
  exact ⟨_, h.symm⟩

/-! ### The claims -/

/-- C9: for every existing input file, `extract_weather_data` raises the
`json.loads` `TypeError` before extracting any field — the open file
object itself, not its contents, is passed to the parser — and therefore
never returns (writes) a parquet file, whatever the file contains. -/
theorem c9_transformer_always_raises (s : String) :
    extract_weather_data (some s) = .error jsonLoadsTypeError ∧
      ∀ f : ParquetFile, extract_weather_data (some s) ≠ .ok f :=
  ⟨rfl, fun _ h => Except.noConfusion h⟩

/-- C1: the claim fails on the code.  For a fully valid API response
(`c1raw`, which parses to `c1json` with all nine fields present), the
Transformer does not produce a row: it raises the `json.loads` `TypeError`
of line 64 and writes nothing.  The transform body after the parse
(lines 67-98) would produce exactly the one claimed row, so the claim
describes the intended behaviour and the code's `json.loads(f)` is the
slip. -/
theorem c1_valid_input_transformer_fails :
    json_loads_str c1raw = some c1json ∧
    extract_weather_data (some c1raw) = .error jsonLoadsTypeError ∧
    extract_body c1json = .ok ⟨weatherSchema, [c1row]⟩ :=
  ⟨rfl, rfl, rfl⟩

set_option linter.unusedVariables false in
/-- C2: for raw contents that do not parse as JSON or lack one of the
required top-level fields `main`, `coord`, `dt`, the Transformer fails
with an error and writes no columnar output.  (It fails on every input,
at the `json.loads` call itself; see C9.) -/
theorem c2_missing_fields_fail (c : String) (h : missingRequired c = true) :
    extract_weather_data (some c) = .error jsonLoadsTypeError ∧
      ∀ f : ParquetFile, extract_weather_data (some c) ≠ .ok f :=
  ⟨rfl, fun _ hh => Except.noConfusion hh⟩

/-- Witness for C2 at the concrete input `"{}"` (braces escaped), which
parses to the empty object and therefore lacks all three required
fields. -/
theorem c2_missing_fields_fail_witness :
    missingRequired "\x7b\x7d" = true ∧
      extract_weather_data (some "\x7b\x7d") = .error jsonLoadsTypeError :=
  ⟨by rfl, (c2_missing_fields_fail "\x7b\x7d" (by rfl)).1⟩

/-- C4: the end-to-end scenario claim fails on the code.  The scenario
response parses to `c4json`, but `extract_weather_data` raises the
`json.loads` `TypeError` on it and writes nothing.  The transform body
after the parse would produce exactly the claimed row — including the
timestamp 1650000000 s, which is the UTC instant 2022-04-15T05:20:00Z —
so the claim matches the intent and the code's parse line is the slip. -/
theorem c4_scenario_transformer_fails :
    json_loads_str c4raw = some c4json ∧
    extract_weather_data (some c4raw) = .error jsonLoadsTypeError ∧
    extract_body c4json = .ok ⟨weatherSchema, [c4row]⟩ ∧
    c4row.timestamp = .time 1650000000 ∧
    epochToUTC 1650000000 = (2022, 4, 15, 5, 20, 0) :=
  ⟨rfl, rfl, rfl, rfl, by decide⟩

/-- C5: any parquet table the transform body (lines 67-98, the writer
portion of the Transformer) builds has exactly the fixed nine-column
schema, in order, and exactly one row. -/
theorem c5_fixed_schema_one_row (j : JValue) (f : ParquetFile)
    (h : extract_body j = .ok f) :
    f.schema = [("temp", PAType.float64), ("feels_like", PAType.float64),
      ("temp_min", PAType.float64), ("temp_max", PAType.float64),
      ("pressure", PAType.float64), ("humidity", PAType.float64),
      ("timestamp", PAType.timestampS), ("lon", PAType.float64),
      ("lat", PAType.float64)] ∧
    f.rows.length = 1 := by
  obtain ⟨r, rfl⟩ := extract_body_ok_shape j f h
  exact ⟨rfl, rfl⟩

/-- Witness for C5 at the concrete parsed response `c1json`. -/
theorem c5_fixed_schema_one_row_witness :
    extract_body c1json = .ok ⟨weatherSchema, [c1row]⟩ ∧
    (ParquetFile.mk weatherSchema [c1row]).schema = [("temp", PAType.float64),
      ("feels_like", PAType.float64), ("temp_min", PAType.float64),
      ("temp_max", PAType.float64), ("pressure", PAType.float64),
      ("humidity", PAType.float64), ("timestamp", PAType.timestampS),
      ("lon", PAType.float64), ("lat", PAType.float64)] ∧
    (ParquetFile.mk weatherSchema [c1row]).rows.length = 1 :=
  ⟨by rfl, c5_fixed_schema_one_row c1json ⟨weatherSchema, [c1row]⟩ (by rfl)⟩

/-- C3 counterexample: a 200 response whose body is not valid JSON does
not make the Fetcher "write the output file and return normally" — the
`open(outfile, 'w')` truncates the file to empty and `r.json()` raises the
decode error. -/
theorem c3_counterexample_200_bad_body :
    download_current_weather_data ⟨200, "not json"⟩ =
      ⟨some "", some .jsonDecodeError⟩ ∧
    (download_current_weather_data ⟨200, "not json"⟩).err ≠ none :=
  ⟨rfl, fun h => Option.noConfusion h⟩

/-- C3 (amended): for a non-200 response the Fetcher raises `ValueError`
with the status code in the message and never touches the output file;
for a 200 response whose body parses as JSON it writes the output file
and returns normally. -/
theorem c3_fetcher_status_behaviour (r : HttpResponse) :
    (r.status ≠ 200 → download_current_weather_data r =
      ⟨none, some (.valueError ("OpenWeatherMap API returned value " ++ toString r.status))⟩) ∧
    (∀ j : JValue, r.status = 200 → json_loads_str r.body = some j →
      download_current_weather_data r = ⟨some (dumpVal j), none⟩) := by
  constructor
  · intro hne
    unfold download_current_weather_data
    rw [if_neg hne]
  · intro j h200 hj
    unfold download_current_weather_data
    rw [if_pos h200, hj]

/-- Witness for C3 at status 404 and at a 200 response with a valid JSON
body. -/
theorem c3_fetcher_status_behaviour_witness :
    download_current_weather_data ⟨404, ""⟩ =
      ⟨none, some (.valueError "OpenWeatherMap API returned value 404")⟩ ∧
    download_current_weather_data ⟨200, "\x7b\"b\":2\x7d"⟩ =
      ⟨some "\x7b\"b\": 2\x7d", none⟩ :=
  ⟨((c3_fetcher_status_behaviour ⟨404, ""⟩).1 (by decide)).trans (by rfl),
   ((c3_fetcher_status_behaviour ⟨200, "\x7b\"b\":2\x7d"⟩).2
      (.obj [("b", .int 2)]) rfl (by rfl)).trans (by rfl)⟩

/-- C6 counterexample: the raw body `'{"a":1}'` is written back as
`'{"a": 1}'` — `json.dump(r.json(), f)` re-serializes the parsed document,
so the local file is not byte-for-byte the response body. -/
theorem c6_counterexample_not_verbatim :
    (download_current_weather_data ⟨200, "\x7b\"a\":1\x7d"⟩).outfile =
      some "\x7b\"a\": 1\x7d" ∧
    (download_current_weather_data ⟨200, "\x7b\"a\":1\x7d"⟩).outfile ≠
      some "\x7b\"a\":1\x7d" :=
  ⟨rfl, by decide⟩

/-- C6 (amended): on a 200 response with a JSON-parseable body the Fetcher
writes the parsed body re-serialized by the default JSON serializer — a
semantically equal document, not necessarily byte-identical to the raw
response — and returns normally. -/
theorem c6_writes_reserialized_body (r : HttpResponse) (j : JValue)
    (h200 : r.status = 200) (hj : json_loads_str r.body = some j) :
    (download_current_weather_data r).outfile = some (dumpVal j) ∧
    (download_current_weather_data r).err = none := by
  unfold download_current_weather_data
  rw [if_pos h200, hj]
  exact ⟨rfl, rfl⟩

/-- Witness for C6: the written file is the default serialization of the
parsed body, which parses back to the same document. -/
theorem c6_writes_reserialized_body_witness :
    (download_current_weather_data ⟨200, "\x7b\"c\":3\x7d"⟩).outfile =
      some (dumpVal (.obj [("c", .int 3)])) ∧
    json_loads_str (dumpVal (.obj [("c", .int 3)])) = some (.obj [("c", .int 3)]) :=
  ⟨(c6_writes_reserialized_body ⟨200, "\x7b\"c\":3\x7d"⟩
      (.obj [("c", .int 3)]) rfl (by rfl)).1,
   by rfl⟩

/-- C7: the load task's declared dispositions (`WRITE_APPEND`,
`CREATE_IF_NEEDED`) create the table when absent and append without
removing or deduplicating existing rows, so loading the same staged
single-row file a second time leaves the table at the first run's multiset
plus one duplicate row. -/
theorem c7_append_duplicates (bucket suffix : String) (T : Multiset Row) (x : Row) :
    bqLoad (load_to_bq_task bucket suffix) none {x} = .ok {x} ∧
    bqLoad (load_to_bq_task bucket suffix) (some T) {x} = .ok (T + {x}) ∧
    bqLoad (load_to_bq_task bucket suffix) (some (T + {x})) {x} = .ok (T + {x} + {x}) :=
  ⟨rfl, rfl, rfl⟩

/-- C8: the declared chain is exactly the six stages Fetch → UploadRaw →
Transform → UploadStaged → Load → Cleanup, and under the halt-on-failure
execution a stage starts iff every earlier stage succeeded — so after any
failure no later stage (including Cleanup) runs. -/
theorem c8_linear_chain :
    dag_chain = [AirflowTask.download_dataset_task, AirflowTask.local_raw_to_gcs_task,
      AirflowTask.extract_data_task, AirflowTask.local_extracted_to_gcs_task,
      AirflowTask.load_to_bq_task, AirflowTask.cleanup_task] ∧
    ∀ ok : AirflowTask → Bool, ∀ i : Fin dag_chain.length,
      (dag_chain.get i ∈ runChain ok dag_chain ↔
        ∀ j : Fin dag_chain.length, j < i → ok (dag_chain.get j) = true) :=
  ⟨rfl, by decide⟩

theorem getCol_assembleDF_coord (df0 : DF) (ts : ScalarVal) (coordCols : DF)
    (k : String) (s : ScalarVal) (hnd : (coordCols.map Prod.fst).Nodup)
    (hg : getCol coordCols k = some s) :
    getCol (assembleDF df0 ts coordCols) k = some s :=
  foldl_setCol_getCol coordCols (setCol df0 "timestamp" ts) k s hnd hg

/-- C10: whenever the transform body succeeds, the output row's `lon` and
`lat` cells are exactly the response's `coord` fields (the `**j['coord']`
expansion), not the module's `LAT`/`LON` request constants — whatever
values `coord` carries. -/
theorem c10_coords_from_response (j : JValue) (f : ParquetFile)
    (cf : List (String × JValue)) (lv la : JValue) (slon slat : ScalarVal)
    (h : extract_body j = .ok f)
    (hco : jget j "coord" = .ok (.obj cf))
    (hnd : (cf.map Prod.fst).Nodup)
    (hlon : lookupF cf "lon" = some lv) (hlat : lookupF cf "lat" = some la)
    (hslon : jscalar lv = .ok slon) (hslat : jscalar la = .ok slat) :
    ∀ r ∈ f.rows, r.lon = slon ∧ r.lat = slat := by
  simp only [extract_body] at h
  cases hmain : jget j "main" with
  | error e => simp [hmain] at h
  | ok mainV =>
  simp only [hmain] at h
  cases hao : asObj mainV with
  | error e => simp [hao] at h
  | ok mainF =>
  simp only [hao] at h
  cases hsm : scalarCols mainF with
  | error e => simp [hsm] at h
  | ok df0 =>
  simp only [hsm] at h
  cases hdt : jget j "dt" with
  | error e => simp [hdt] at h
  | ok dtV =>
  simp only [hdt] at h
  cases hts : to_datetime_s dtV with
  | error e => simp [hts] at h
  | ok ts =>
  simp only [hts] at h
  simp only [hco, asObj] at h
  rcases hsplit : cf.any (fun kv => assignKwargs.contains kv.1) with _ | _
  case true => rw [hsplit] at h; exact Except.noConfusion h
  rw [hsplit] at h
  cases hsc : scalarCols cf with
  | error e => simp [hsc] at h
  | ok coordCols =>
  simp only [hsc] at h
  cases hc1 : castFloatCol (assembleDF df0 ts coordCols) "temp" with
  | error e => simp [hc1] at h
  | ok df3 =>
  simp only [hc1] at h
  cases hc2 : castFloatCol df3 "feels_like" with
  | error e => simp [hc2] at h
  | ok df4 =>
  simp only [hc2] at h
  cases hc3 : castFloatCol df4 "temp_min" with
  | error e => simp [hc3] at h
  | ok df5 =>
  simp only [hc3] at h
  cases hc4 : castFloatCol df5 "temp_max" with
  | error e => simp [hc4] at h
  | ok df6 =>
  simp only [hc4] at h
  cases hc5 : castFloatCol df6 "pressure" with
  | error e => simp [hc5] at h
  | ok df7 =>
  simp only [hc5] at h
  cases hc6 : castFloatCol df7 "humidity" with
  | error e => simp [hc6] at h
  | ok df8 =>
  simp only [hc6] at h
  cases hrow : rowFromDF df8 with
  | error e => simp [hrow] at h
  | ok row =>
  simp only [hrow] at h
  injection h with h
  subst h
  intro r hr
  rcases List.mem_singleton.mp hr with rfl
  have hkeys := scalarCols_ok_keys cf coordCols hsc
  have hndS : (coordCols.map Prod.fst).Nodup := by rw [hkeys]; exact hnd
  have hlonC : getCol coordCols "lon" = some slon :=
    scalarCols_ok_lookup cf coordCols "lon" lv slon hsc hlon hslon
  have hlatC : getCol coordCols "lat" = some slat :=
    scalarCols_ok_lookup cf coordCols "lat" la slat hsc hlat hslat
  have g2lon : getCol (assembleDF df0 ts coordCols) "lon" = some slon :=
    getCol_assembleDF_coord df0 ts coordCols "lon" slon hndS hlonC
  have g2lat : getCol (assembleDF df0 ts coordCols) "lat" = some slat :=
    getCol_assembleDF_coord df0 ts coordCols "lat" slat hndS hlatC
  have g3lon : getCol df3 "lon" = some slon :=
    (castFloatCol_ok_ne _ df3 "temp" "lon" hc1 (by decide)).trans g2lon
  have g3lat : getCol df3 "lat" = some slat :=
    (castFloatCol_ok_ne _ df3 "temp" "lat" hc1 (by decide)).trans g2lat
  have g4lon : getCol df4 "lon" = some slon :=
    (castFloatCol_ok_ne df3 df4 "feels_like" "lon" hc2 (by decide)).trans g3lon
  have g4lat : getCol df4 "lat" = some slat :=
    (castFloatCol_ok_ne df3 df4 "feels_like" "lat" hc2 (by decide)).trans g3lat
  have g5lon : getCol df5 "lon" = some slon :=
    (castFloatCol_ok_ne df4 df5 "temp_min" "lon" hc3 (by decide)).trans g4lon
  have g5lat : getCol df5 "lat" = some slat :=
    (castFloatCol_ok_ne df4 df5 "temp_min" "lat" hc3 (by decide)).trans g4lat
  have g6lon : getCol df6 "lon" = some slon :=
    (castFloatCol_ok_ne df5 df6 "temp_max" "lon" hc4 (by decide)).trans g5lon
  have g6lat : getCol df6 "lat" = some slat :=
    (castFloatCol_ok_ne df5 df6 "temp_max" "lat" hc4 (by decide)).trans g5lat
  have g7lon : getCol df7 "lon" = some slon :=
    (castFloatCol_ok_ne df6 df7 "pressure" "lon" hc5 (by decide)).trans g6lon
  have g7lat : getCol df7 "lat" = some slat :=
    (castFloatCol_ok_ne df6 df7 "pressure" "lat" hc5 (by decide)).trans g6lat
  have g8lon : getCol df8 "lon" = some slon :=
    (castFloatCol_ok_ne df7 df8 "humidity" "lon" hc6 (by decide)).trans g7lon
  have g8lat : getCol df8 "lat" = some slat :=
    (castFloatCol_ok_ne df7 df8 "humidity" "lat" hc6 (by decide)).trans g7lat
  have hreqlon := rowFromDF_ok_lon df8 r hrow
  have hreqlat := rowFromDF_ok_lat df8 r hrow
  unfold reqFloatCol at hreqlon hreqlat
  rw [g8lon] at hreqlon
  rw [g8lat] at hreqlat
  constructor
  · cases slon with
    | num q => injection hreqlon with hh; exact hh.symm
    | snull => injection hreqlon with hh; exact hh.symm
    | sstr s => exact Except.noConfusion hreqlon
    | sbool b => exact Except.noConfusion hreqlon
    | time t => exact Except.noConfusion hreqlon
  · cases slat with
    | num q => injection hreqlat with hh; exact hh.symm
    | snull => injection hreqlat with hh; exact hh.symm
    | sstr s => exact Except.noConfusion hreqlat
    | sbool b => exact Except.noConfusion hreqlat
    | time t => exact Except.noConfusion hreqlat

/-- Witness for C10 at a response whose coordinates (1, 2) differ from the
configured request point `(LON, LAT)`. -/
theorem c10_coords_from_response_witness :
    extract_body c10json = .ok ⟨weatherSchema, [c10row]⟩ ∧
    c10row.lon = .num (mkRat 1 1) ∧ c10row.lat = .num (mkRat 2 1) ∧
    ¬(mkRat 1 1 = LON) ∧ ¬(mkRat 2 1 = LAT) := by
  have h := c10_coords_from_response c10json ⟨weatherSchema, [c10row]⟩
    [("lon", .int 1), ("lat", .int 2)] (.int 1) (.int 2)
    (.num (mkRat 1 1)) (.num (mkRat 2 1))
    (by rfl) (by rfl) (by decide) (by rfl) (by rfl) (by rfl) (by rfl)
    c10row (List.mem_singleton.mpr rfl)
  exact ⟨by rfl, h.1, h.2, by decide, by decide⟩

/-- Witness for C8: when the staged upload fails, neither the load nor the
cleanup task runs. -/
theorem c8_linear_chain_witness :
    AirflowTask.load_to_bq_task ∉ runChain failUploadStaged dag_chain ∧
    AirflowTask.cleanup_task ∉ runChain failUploadStaged dag_chain :=
  ⟨fun hm => absurd ((c8_linear_chain.2 failUploadStaged ⟨4, by decide⟩).mp hm) (by decide),
   fun hm => absurd ((c8_linear_chain.2 failUploadStaged ⟨5, by decide⟩).mp hm) (by decide)⟩
